import Mathlib

/-!
Verification development for the transaction/note lifecycle orchestration
layer of the masm-project-template repository (src/src/common.rs).

The stateful Rust functions are shallowly embedded as pure Lean functions.
External collaborators (the ledger session, the assembler toolchain, the
filesystem) are modelled as explicit oracle structures whose fields give the
result of each external call; the repository functions are translated over
those oracles.  The polling loops `wait_for_tx` and `wait_for_note`, which
loop unconditionally in the source, are embedded with an explicit fuel
argument: a result of `none` means the loop is still running after `fuel`
iterations (the sleep between iterations is irrelevant to the properties and
is dropped).
-/

namespace MasmTemplate

/-- Status of a transaction record, as in `miden_client::transaction::TransactionStatus`:
`Pending`, `Committed { block_num }`, or `Discarded`. -/
inductive TransactionStatus where
  | Pending : TransactionStatus
  | Committed : Nat → TransactionStatus
  | Discarded : TransactionStatus
deriving DecidableEq, Repr

/-- `matches!(tx.status, TransactionStatus::Committed { .. })` from
`wait_for_tx` (src/src/common.rs line 248). -/
def TransactionStatus.isCommitted : TransactionStatus → Bool
  | .Committed _ => true
  | _ => false

/-- A transaction record as returned by `client.get_transactions`: the
fields `wait_for_tx` reads are the transaction id (for the query filter) and
the status. Ids are opaque and modelled as `Nat`. -/
structure TransactionRecord where
  id : Nat
  status : TransactionStatus
deriving DecidableEq, Repr

/-- The ledger-session operations consumed by `wait_for_tx`, as oracles
indexed by the poll number `k`:
`syncOk k` tells whether the k-th `client.sync_state()` call succeeds, and
`getTransactions k ids` gives the k-th `client.get_transactions
(TransactionFilter::Ids(ids))` response (`none` models a query error). -/
structure TxSession where
  syncOk : Nat → Bool
  getTransactions : Nat → List Nat → Option (List TransactionRecord)

/-- The commit check from src/src/common.rs lines 246-248:
`txs.get(0).is_some_and(|tx| matches!(tx.status, TransactionStatus::Committed { .. }))`.
It inspects only the first element of the record list. -/
def committedCheck (txs : List TransactionRecord) : Bool :=
  match txs[0]? with
  | some tx => tx.status.isCommitted
  | none => false

/-- Outcome of a confirmation loop, instrumented with the index of the poll
on which the loop ended: `success k` is the Rust `return Ok(())` taken
during poll `k`; `failure k` is an early `Err` return caused by the `?` on
`sync_state` or on the query during poll `k`. -/
inductive WaitOutcome where
  | success : Nat → WaitOutcome
  | failure : Nat → WaitOutcome
deriving DecidableEq, Repr

/-- Shallow embedding of `wait_for_tx` (src/src/common.rs lines 238-261).
Each iteration: `client.sync_state().await?` (a failed sync aborts with
`Err` via `?`), then `client.get_transactions(TransactionFilter::Ids(vec![tx_id]))
.await?` (a failed query aborts likewise), then the `committedCheck` on the
returned list; on `true` the loop returns `Ok(())`, otherwise it sleeps and
repeats.  `fuel` bounds the number of iterations we unroll; `k` is the
current poll index (the Rust entry point is `k = 0`). -/
def waitForTx (s : TxSession) (txId : Nat) : Nat → Nat → Option WaitOutcome
  | 0, _ => none
  | fuel + 1, k =>
    if s.syncOk k then
      match s.getTransactions k [txId] with
      | none => some (.failure k)
      | some txs =>
        if committedCheck txs then some (.success k)
        else waitForTx s txId fuel (k + 1)
    else some (.failure k)

/-- The ledger-session operations consumed by `wait_for_note`, indexed by
poll number: `getConsumableNotes k accountId` is the k-th
`client.get_consumable_notes(account_id)` response (list of the record ids
of the returned `(record, consumability)` pairs), and
`getInputNotesCommitted k` is the k-th
`client.get_input_notes(NoteFilter::Committed)` response (list of record
ids).  `none` models a query error. -/
structure NoteSession where
  syncOk : Nat → Bool
  getConsumableNotes : Nat → Option Nat → Option (List Nat)
  getInputNotesCommitted : Nat → Option (List Nat)

/-- Shallow embedding of `wait_for_note` (src/src/common.rs lines 264-292).
Each iteration: `client.sync_state().await?`, then both queries (each `?`),
then the check
`consumable.iter().any(|(rec, _)| rec.id() == expected.id()) || committed.iter().any(|rec| rec.id() == expected.id())`;
on `true` the loop breaks and the function returns `Ok(())`. -/
def waitForNote (s : NoteSession) (accountId : Option Nat) (expectedId : Nat) :
    Nat → Nat → Option WaitOutcome
  | 0, _ => none
  | fuel + 1, k =>
    if s.syncOk k then
      match s.getConsumableNotes k accountId with
      | none => some (.failure k)
      | some consumable =>
        match s.getInputNotesCommitted k with
        | none => some (.failure k)
        | some committed =>
          if consumable.any (· == expectedId) || committed.any (· == expectedId) then
            some (.success k)
          else waitForNote s accountId expectedId fuel (k + 1)
    else some (.failure k)

/-- The console messages printed by `delete_keystore_and_store`
(src/src/common.rs lines 39-65), one constructor per `println!`/`eprintln!`
call site; the `String` argument carries the file path interpolated into the
message. -/
inductive LogMsg where
  | clearedStore : LogMsg
  | storeNotFound : LogMsg
  | failedRemoveStore : LogMsg
  | removedFile : String → LogMsg
  | failedRemoveFile : String → LogMsg
  | failedReadDir : LogMsg
deriving DecidableEq, Repr

/-- The slice of filesystem state touched by `delete_keystore_and_store`:
whether `./store.sqlite3` exists, and the keystore directory
(`none` when `read_dir("./keystore")` fails, e.g. the directory is absent;
`some files` when it exists with the given files directly inside). -/
structure FsState where
  storeExists : Bool
  keystore : Option (List String)
deriving DecidableEq, Repr

/-- Fault model for the filesystem calls: whether `remove_file` fails on the
store file, and on each keystore file. -/
structure FsFaults where
  removeStoreFails : Bool
  removeFileFails : String → Bool

/-- Result of one `delete_keystore_and_store` run: the filesystem state
afterwards, the `println!` output and the `eprintln!` output.  The Rust
function returns `()` unconditionally, which is reflected by this type
carrying no error alternative. -/
structure ResetOutcome where
  state : FsState
  stdout : List LogMsg
  stderr : List LogMsg
deriving DecidableEq, Repr

/-- The `while let Ok(Some(entry))` loop over the keystore directory
(src/src/common.rs lines 54-61): attempts `remove_file` on every entry,
printing a message per entry.  Returns the files left behind (those whose
removal failed), the stdout lines, and the stderr lines. -/
def removeKeystoreFiles (f : FsFaults) : List String → List String × List LogMsg × List LogMsg
  | [] => ([], [], [])
  | file :: rest =>
    let (kept, out, err) := removeKeystoreFiles f rest
    if f.removeFileFails file then (file :: kept, out, .failedRemoveFile file :: err)
    else (kept, .removedFile file :: out, err)

/-- Shallow embedding of `delete_keystore_and_store` (src/src/common.rs
lines 39-65).  First the store file: if `metadata` finds it, try to remove
it, reporting failure on stderr and leaving the file in place; if absent,
print "store not found" on stdout (not an error).  Then the keystore
directory: if `read_dir` succeeds, try to remove every file directly inside
(the directory itself is untouched); if it fails, report on stderr.  Every
error is swallowed: the function always returns a `ResetOutcome`. -/
def deleteKeystoreAndStore (f : FsFaults) (s : FsState) : ResetOutcome :=
  let (storeLeft, storeOut, storeErr) :=
    if s.storeExists then
      if f.removeStoreFails then (true, ([] : List LogMsg), [LogMsg.failedRemoveStore])
      else (false, [LogMsg.clearedStore], [])
    else (false, [LogMsg.storeNotFound], [])
  match s.keystore with
  | some files =>
    let (kept, ksOut, ksErr) := removeKeystoreFiles f files
    ⟨⟨storeLeft, some kept⟩, storeOut ++ ksOut, storeErr ++ ksErr⟩
  | none =>
    ⟨⟨storeLeft, none⟩, storeOut, storeErr ++ [LogMsg.failedReadDir]⟩

/-- The fault-free filesystem: every removal succeeds. -/
def noFaults : FsFaults := ⟨false, fun _ => false⟩

/-- Errors surfaced by the builder helpers, mirroring the dynamic
`Box<dyn std::error::Error>` at the granularity the claims need: a compile
error from the assembler, a linking error from
`with_dynamically_linked_library`, an error from `NoteInputs::new`, from
`TransactionRequestBuilder::build`, from `submit_new_transaction`, or a
`ClientError` from the confirmation loop (tagged with the failing poll). -/
inductive BuildError where
  | compileError : Nat → BuildError
  | linkError : BuildError
  | inputsError : BuildError
  | requestBuildError : BuildError
  | submitError : BuildError
  | clientError : Nat → BuildError
deriving DecidableEq, Repr

/-- An assembled MASM library, opaque. -/
structure Library where
  handle : Nat
deriving DecidableEq, Repr

/-- A compiled transaction script, opaque. -/
structure TransactionScript where
  handle : Nat
deriving DecidableEq, Repr

/-- The external assembler toolchain behind `CodeBuilder`, as an oracle:
`linkOk lib` tells whether `with_dynamically_linked_library(&lib)` succeeds,
and `compileTxScript libs code` gives the result of `compile_tx_script(code)`
on a builder holding the dynamically linked libraries `libs`. -/
structure AsmEnv where
  linkOk : Library → Bool
  compileTxScript : List Library → String → Except BuildError TransactionScript

/-- The state of a `CodeBuilder`: the libraries linked so far. -/
structure CodeBuilder where
  libs : List Library
deriving DecidableEq, Repr

/-- `CodeBuilder::new()`. -/
def CodeBuilder.new : CodeBuilder := ⟨[]⟩

/-- `builder.with_dynamically_linked_library(&lib)?`: on success the builder
with `lib` appended, otherwise the link error propagated by `?`. -/
def CodeBuilder.withDynamicallyLinkedLibrary (env : AsmEnv) (b : CodeBuilder)
    (lib : Library) : Except BuildError CodeBuilder :=
  if env.linkOk lib then .ok ⟨b.libs ++ [lib]⟩ else .error .linkError

/-- Shallow embedding of `create_tx_script` (src/src/common.rs lines
224-235): with `Some(lib)` the script is compiled on a fresh `CodeBuilder`
that first dynamically links `lib`; with `None` it is compiled on a fresh
standalone `CodeBuilder`. -/
def createTxScript (env : AsmEnv) (scriptCode : String) (library : Option Library) :
    Except BuildError TransactionScript :=
  match library with
  | some lib =>
    match CodeBuilder.withDynamicallyLinkedLibrary env CodeBuilder.new lib with
    | .error e => .error e
    | .ok b => env.compileTxScript b.libs scriptCode
  | none => env.compileTxScript CodeBuilder.new.libs scriptCode

/-- A program produced by `assemble_program`, opaque. -/
structure Program where
  handle : Nat
deriving DecidableEq, Repr

/-- `NoteScript::new(program)`. -/
structure NoteScript where
  program : Program
deriving DecidableEq, Repr

/-- Note inputs as built by `NoteInputs::new`. -/
structure NoteInputs where
  values : List Nat
deriving DecidableEq, Repr

/-- Note visibility type; `create_public_note` uses `NoteType::Public`. -/
inductive NoteType where
  | Public : NoteType
  | Private : NoteType
deriving DecidableEq, Repr

/-- `NoteMetadata::new(creator_account.id(), NoteType::Public, tag)`. -/
structure NoteMetadata where
  sender : Nat
  noteType : NoteType
  tag : Nat
deriving DecidableEq, Repr

/-- `NoteRecipient::new(serial_num, note_script, note_inputs)`. -/
structure NoteRecipient where
  serialNum : Nat
  script : NoteScript
  inputs : NoteInputs
deriving DecidableEq, Repr

/-- A note asset vault, opaque. -/
structure NoteAssets where
  assets : List Nat
deriving DecidableEq, Repr

/-- `Note::new(assets, metadata, recipient)`. -/
structure Note where
  assets : NoteAssets
  metadata : NoteMetadata
  recipient : NoteRecipient
deriving DecidableEq, Repr

/-- A built transaction request, opaque. -/
structure TransactionRequest where
  handle : Nat
deriving DecidableEq, Repr

/-- The external calls made by `create_public_note` besides the confirmation
loop, as oracles: the assembler (`assemble_program`), the random serial word
(`rng.draw_word()`), `NoteInputs::new`, the request builder
(`TransactionRequestBuilder::new().own_output_notes(...).build()`), and
`submit_new_transaction(account_id, request)` which, on success, returns the
transaction id. -/
structure NoteEnv where
  assembleProgram : String → Except BuildError Program
  drawWord : Nat
  noteInputsNew : List Nat → Except BuildError NoteInputs
  buildRequest : Note → Except BuildError TransactionRequest
  submitNewTransaction : Nat → TransactionRequest → Except BuildError Nat

/-- Shallow embedding of `create_public_note` (src/src/common.rs lines
105-134).  Every `?` in the Rust function is a propagating match; after a
successful submission the function runs `wait_for_tx` on the returned
transaction id, so a result of `none` means that confirmation loop is still
polling after `fuel` iterations; `some (.ok note)` is the Rust
`Ok(note)`. -/
def createPublicNote (env : NoteEnv) (s : TxSession) (fuel : Nat)
    (noteCode : String) (creatorAccountId : Nat) (assets : NoteAssets) :
    Option (Except BuildError Note) :=
  match env.assembleProgram noteCode with
  | .error e => some (.error e)
  | .ok program =>
    let noteScript : NoteScript := ⟨program⟩
    match env.noteInputsNew [] with
    | .error e => some (.error e)
    | .ok noteInputs =>
      let recipient : NoteRecipient := ⟨env.drawWord, noteScript, noteInputs⟩
      let tag := 0
      let metadata : NoteMetadata := ⟨creatorAccountId, .Public, tag⟩
      let note : Note := ⟨assets, metadata, recipient⟩
      match env.buildRequest note with
      | .error e => some (.error e)
      | .ok req =>
        match env.submitNewTransaction creatorAccountId req with
        | .error e => some (.error e)
        | .ok txId =>
          match waitForTx s txId fuel 0 with
          | none => none
          | some (.failure k) => some (.error (.clientError k))
          | some (.success _) => some (.ok note)

/-! ### Concrete sessions and environments used by witnesses and
counterexamples -/

/-- A session whose query answers, for any filter, a single record with
status `Committed` but transaction id 2: it never returns records for the
requested ids. -/
def mismatchSession : TxSession :=
  ⟨fun _ => true, fun _ _ => some [⟨2, .Committed 7⟩]⟩

/-- A well-behaved session: the query answers, for the requested ids, one
`Committed` record per id. -/
def filteredSession : TxSession :=
  ⟨fun _ => true, fun _ ids => some (ids.map fun i => ⟨i, .Committed 5⟩)⟩

/-- A session whose sync fails on poll 0 only, while the tracked transaction
is already committed: a retrying tracker would succeed on the next poll. -/
def transientSyncSession : TxSession :=
  ⟨fun k => k != 0, fun _ ids => some (ids.map fun i => ⟨i, .Committed 3⟩)⟩

/-- A note session whose sync fails on poll 0 only, while the expected note
(id 9) is already consumable. -/
def transientNoteSession : NoteSession :=
  ⟨fun k => k != 0, fun _ _ => some [9], fun _ => some []⟩

/-- A session whose sync always fails; its query would report no records at
all. -/
def syncFailSession : TxSession :=
  ⟨fun _ => false, fun _ _ => some []⟩

/-- A well-behaved session on which the tracked transaction stays `Pending`
forever. -/
def pendingSession : TxSession :=
  ⟨fun _ => true, fun _ ids => some (ids.map fun i => ⟨i, .Pending⟩)⟩

/-- Per-poll status of the tracked transaction on `eventualSession`:
`Pending` on polls 0 and 1, `Committed` from poll 2 on. -/
def eventualStatus (k : Nat) : TransactionStatus :=
  if k < 2 then .Pending else .Committed 9

/-- A well-behaved session on which the tracked transaction first reports
`Committed` on poll 2. -/
def eventualSession : TxSession :=
  ⟨fun _ => true, fun k ids => some (ids.map fun i => ⟨i, eventualStatus k⟩)⟩

/-- Committed-input-notes view of `eventualNoteSession` per poll: empty on
poll 0, the note id 9 from poll 1 on. -/
def eventualCommittedView (k : Nat) : List Nat :=
  if k < 1 then [] else [9]

/-- A note session on which the expected note (id 9) appears in the
committed-input-notes view from poll 1 on and never in the consumable
view. -/
def eventualNoteSession : NoteSession :=
  ⟨fun _ => true, fun _ _ => some [], fun k => some (eventualCommittedView k)⟩

/-- A session whose query answers a `Pending` record first and a `Committed`
record for the same id second. -/
def secondPositionSession : TxSession :=
  ⟨fun _ => true, fun _ _ => some [⟨1, .Pending⟩, ⟨1, .Committed 4⟩]⟩

/-- A note session whose sync always fails; its queries would report
nothing. -/
def syncFailNoteSession : NoteSession :=
  ⟨fun _ => false, fun _ _ => some [], fun _ => some []⟩

/-- A `create_public_note` environment in which every step succeeds except
`submit_new_transaction`, which is rejected. -/
def submitFailEnv : NoteEnv :=
  ⟨fun _ => .ok ⟨0⟩, 0, fun v => .ok ⟨v⟩, fun _ => .ok ⟨0⟩, fun _ _ => .error .submitError⟩

/-- A `create_public_note` environment in which every step succeeds; the
submitted transaction gets id 1. -/
def goodNoteEnv : NoteEnv :=
  ⟨fun _ => .ok ⟨0⟩, 0, fun v => .ok ⟨v⟩, fun _ => .ok ⟨0⟩, fun _ _ => .ok 1⟩

/-- An assembler toolchain on which dynamic linking always succeeds and
compilation returns a script tagged with the number of linked libraries. -/
def linkEnv : AsmEnv :=
  ⟨fun _ => true, fun libs _ => .ok ⟨libs.length⟩⟩

/-! ### Helper lemmas about the confirmation loops -/

/-- A successful return of the transaction loop happened on a poll `k` at or
after the starting poll, on which the sync succeeded, the query succeeded,
and the commit check held. -/
theorem waitForTx_success_clean (s : TxSession) (txId : Nat) :
    ∀ fuel start k, waitForTx s txId fuel start = some (.success k) →
      start ≤ k ∧ s.syncOk k = true ∧
      ∃ txs, s.getTransactions k [txId] = some txs ∧ committedCheck txs = true := by
  intro fuel
  induction fuel with
  | zero => intro start k h; simp [waitForTx] at h
  | succ n ih =>
    intro start k h
    rw [waitForTx] at h
    by_cases hs : s.syncOk start
    · rw [if_pos hs] at h
      cases hq : s.getTransactions start [txId] with
      | none => rw [hq] at h; simp at h
      | some txs =>
        rw [hq] at h
        dsimp only at h
        by_cases hc : committedCheck txs
        · rw [if_pos hc] at h
          have hk : start = k := by
            have := Option.some.inj h
            cases this
            rfl
          subst hk
          exact ⟨le_rfl, hs, txs, hq, hc⟩
        · rw [if_neg hc] at h
          obtain ⟨hle, rest⟩ := ih (start + 1) k h
          exact ⟨by omega, rest⟩
    · rw [if_neg hs] at h
      simp at h

/-- An error-free poll whose records fail the commit check makes the loop
proceed to the next poll. -/
theorem waitForTx_step (s : TxSession) (txId fuel k : Nat) (txs : List TransactionRecord)
    (hs : s.syncOk k = true) (hq : s.getTransactions k [txId] = some txs)
    (hc : committedCheck txs = false) :
    waitForTx s txId (fuel + 1) k = waitForTx s txId fuel (k + 1) := by
  rw [waitForTx, if_pos hs, hq]
  dsimp only
  rw [if_neg (by simp [hc])]

/-- A failed sync on poll `k` aborts the transaction loop with an error on
that very poll. -/
theorem waitForTx_syncFail (s : TxSession) (txId fuel k : Nat)
    (hs : s.syncOk k = false) :
    waitForTx s txId (fuel + 1) k = some (.failure k) := by
  rw [waitForTx, if_neg (by simp [hs])]

/-- While every poll in the fuel window is error-free and fails the commit
check, the loop neither succeeds nor errors: it is still polling. -/
theorem waitForTx_none_below (s : TxSession) (txId : Nat) :
    ∀ fuel start,
      (∀ j, start ≤ j → j < start + fuel →
        s.syncOk j = true ∧
        ∃ txs, s.getTransactions j [txId] = some txs ∧ committedCheck txs = false) →
      waitForTx s txId fuel start = none := by
  intro fuel
  induction fuel with
  | zero => intro start _; rfl
  | succ n ih =>
    intro start hbelow
    obtain ⟨hs, txs, hq, hc⟩ := hbelow start le_rfl (by omega)
    rw [waitForTx_step s txId n start txs hs hq hc]
    exact ih (start + 1) fun j h1 h2 => hbelow j (by omega) (by omega)

/-- If every poll strictly before `k` (from the start) is error-free and
fails the commit check, and poll `k` is error-free and passes it, then with
enough fuel the loop returns success exactly on poll `k`. -/
theorem waitForTx_first_commit (s : TxSession) (txId k : Nat)
    (hbefore : ∀ j, j < k →
      s.syncOk j = true ∧
      ∃ txs, s.getTransactions j [txId] = some txs ∧ committedCheck txs = false)
    (hsk : s.syncOk k = true)
    (hk : ∃ txs, s.getTransactions k [txId] = some txs ∧ committedCheck txs = true) :
    ∀ fuel start, start ≤ k → k < start + fuel →
      waitForTx s txId fuel start = some (.success k) := by
  intro fuel
  induction fuel with
  | zero => intro start h1 h2; omega
  | succ n ih =>
    intro start h1 h2
    rcases Nat.eq_or_lt_of_le h1 with heq | hlt
    · subst heq
      obtain ⟨txs, hq, hc⟩ := hk
      rw [waitForTx, if_pos hsk, hq]
      dsimp only
      rw [if_pos (by simp [hc])]
    · obtain ⟨hs, txs, hq, hc⟩ := hbefore start hlt
      rw [waitForTx_step s txId n start txs hs hq hc]
      exact ih (start + 1) (by omega) (by omega)

/-- A list passing the commit check contains a committed record (namely its
first element). -/
theorem committedCheck_eq_true (txs : List TransactionRecord)
    (h : committedCheck txs = true) :
    ∃ r, r ∈ txs ∧ r.status.isCommitted = true := by
  cases txs with
  | nil => simp [committedCheck] at h
  | cons r rest =>
    refine ⟨r, List.mem_cons_self r rest, ?_⟩
    simpa [committedCheck] using h

/-- A successful return of the note loop happened on a poll on which the
sync succeeded, both queries succeeded, and the note id appeared in at least
one of the two views. -/
theorem waitForNote_success_found (s : NoteSession) (accountId : Option Nat)
    (expectedId : Nat) :
    ∀ fuel start k,
      waitForNote s accountId expectedId fuel start = some (.success k) →
      start ≤ k ∧ s.syncOk k = true ∧
      ∃ cons comm, s.getConsumableNotes k accountId = some cons ∧
        s.getInputNotesCommitted k = some comm ∧
        (cons.any (· == expectedId) || comm.any (· == expectedId)) = true := by
  intro fuel
  induction fuel with
  | zero => intro start k h; simp [waitForNote] at h
  | succ n ih =>
    intro start k h
    rw [waitForNote] at h
    by_cases hs : s.syncOk start
    · rw [if_pos hs] at h
      cases hcons : s.getConsumableNotes start accountId with
      | none => rw [hcons] at h; simp at h
      | some cons =>
        rw [hcons] at h
        dsimp only at h
        cases hcomm : s.getInputNotesCommitted start with
        | none => rw [hcomm] at h; simp at h
        | some comm =>
          rw [hcomm] at h
          dsimp only at h
          by_cases hf : (cons.any (· == expectedId) || comm.any (· == expectedId)) = true
          · rw [if_pos hf] at h
            have hk : start = k := by
              have := Option.some.inj h
              cases this
              rfl
            subst hk
            exact ⟨le_rfl, hs, cons, comm, hcons, hcomm, hf⟩
          · rw [if_neg hf] at h
            obtain ⟨hle, rest⟩ := ih (start + 1) k h
            exact ⟨by omega, rest⟩
    · rw [if_neg hs] at h
      simp at h

/-- An error-free poll on which the note id appears in neither view makes
the note loop proceed to the next poll. -/
theorem waitForNote_step (s : NoteSession) (accountId : Option Nat)
    (expectedId fuel k : Nat) (cons comm : List Nat)
    (hs : s.syncOk k = true)
    (hcons : s.getConsumableNotes k accountId = some cons)
    (hcomm : s.getInputNotesCommitted k = some comm)
    (hf : (cons.any (· == expectedId) || comm.any (· == expectedId)) = false) :
    waitForNote s accountId expectedId (fuel + 1) k =
      waitForNote s accountId expectedId fuel (k + 1) := by
  rw [waitForNote, if_pos hs, hcons]
  dsimp only
  rw [hcomm]
  dsimp only
  rw [if_neg (by simp [hf])]

/-- A failed sync on poll `k` aborts the note loop with an error on that
very poll. -/
theorem waitForNote_syncFail (s : NoteSession) (accountId : Option Nat)
    (expectedId fuel k : Nat) (hs : s.syncOk k = false) :
    waitForNote s accountId expectedId (fuel + 1) k = some (.failure k) := by
  rw [waitForNote, if_neg (by simp [hs])]

/-- If every poll strictly before `k` is error-free with the note id in
neither view, and on poll `k` the id appears in one of the views, then with
enough fuel the note loop returns success exactly on poll `k`. -/
theorem waitForNote_first_found (s : NoteSession) (accountId : Option Nat)
    (expectedId k : Nat)
    (hbefore : ∀ j, j < k →
      s.syncOk j = true ∧
      ∃ cons comm, s.getConsumableNotes j accountId = some cons ∧
        s.getInputNotesCommitted j = some comm ∧
        (cons.any (· == expectedId) || comm.any (· == expectedId)) = false)
    (hsk : s.syncOk k = true)
    (hk : ∃ cons comm, s.getConsumableNotes k accountId = some cons ∧
      s.getInputNotesCommitted k = some comm ∧
      (cons.any (· == expectedId) || comm.any (· == expectedId)) = true) :
    ∀ fuel start, start ≤ k → k < start + fuel →
      waitForNote s accountId expectedId fuel start = some (.success k) := by
  intro fuel
  induction fuel with
  | zero => intro start h1 h2; omega
  | succ n ih =>
    intro start h1 h2
    rcases Nat.eq_or_lt_of_le h1 with heq | hlt
    · subst heq
      obtain ⟨cons, comm, hcons, hcomm, hf⟩ := hk
      rw [waitForNote, if_pos hsk, hcons]
      dsimp only
      rw [hcomm]
      dsimp only
      rw [if_pos (by simp [hf])]
    · obtain ⟨hs, cons, comm, hcons, hcomm, hf⟩ := hbefore start hlt
      rw [waitForNote_step s accountId expectedId n start cons comm hs hcons hcomm hf]
      exact ih (start + 1) (by omega) (by omega)

/-- The keystore sweep keeps exactly the files whose removal fails and
reports exactly those on stderr. -/
theorem removeKeystoreFiles_spec (f : FsFaults) :
    ∀ files : List String,
      (removeKeystoreFiles f files).1 = files.filter f.removeFileFails ∧
      (removeKeystoreFiles f files).2.2 =
        (files.filter f.removeFileFails).map LogMsg.failedRemoveFile := by
  intro files
  induction files with
  | nil => simp [removeKeystoreFiles]
  | cons file rest ih =>
    by_cases hf : f.removeFileFails file
    · simp [removeKeystoreFiles, hf, List.filter_cons, ih.1, ih.2]
    · simp [removeKeystoreFiles, hf, List.filter_cons, ih.1, ih.2]

/-- The fault-free pattern never fails the store removal. -/
theorem noFaults_removeStore : noFaults.removeStoreFails = false := rfl

/-- With no filesystem faults the keystore sweep removes everything and
reports nothing on stderr. -/
theorem removeKeystoreFiles_noFaults (files : List String) :
    removeKeystoreFiles noFaults files = ([], files.map LogMsg.removedFile, []) := by
  induction files with
  | nil => rfl
  | cons file rest ih =>
    rw [removeKeystoreFiles, ih]
    rfl

/-! ### Claim theorems -/

/-- Claim C1 counterexample: as literally stated the safety claim fails,
because the commit check never compares the record id to the tracked id.
On a session whose query answers a `Committed` record for transaction id 2,
`wait_for_tx` tracking transaction id 1 returns success on poll 0, although
the fetched record set contains no record at all for the tracked id. -/
theorem tx_safety_counterexample :
    waitForTx mismatchSession 1 1 0 = some (.success 0) ∧
    mismatchSession.getTransactions 0 [1] = some [⟨2, .Committed 7⟩] ∧
    (([⟨2, .Committed 7⟩] : List TransactionRecord).filter fun r => r.id == 1) = [] := by
  decide

/-- Claim C1 (amended): provided the id-filtered query returns only records
whose id is among the requested ids, `wait_for_tx` returns success only when
the fetched record set contains an entry with the tracked id and status
`Committed`; moreover any error-free poll whose records fail the commit
check does not terminate the loop but proceeds to the next poll. -/
theorem tx_safety_filtered (s : TxSession) (txId fuel start k : Nat)
    (hfilter : ∀ n ids txs r, s.getTransactions n ids = some txs → r ∈ txs → r.id ∈ ids)
    (hsucc : waitForTx s txId fuel start = some (.success k)) :
    (∃ txs, s.getTransactions k [txId] = some txs ∧
      ∃ r, r ∈ txs ∧ r.id = txId ∧ r.status.isCommitted = true) ∧
    ∀ j f txs, s.syncOk j = true → s.getTransactions j [txId] = some txs →
      committedCheck txs = false →
      waitForTx s txId (f + 1) j = waitForTx s txId f (j + 1) := by
  constructor
  · obtain ⟨-, -, txs, hq, hc⟩ := waitForTx_success_clean s txId fuel start k hsucc
    obtain ⟨r, hmem, hcom⟩ := committedCheck_eq_true txs hc
    have hid : r.id ∈ [txId] := hfilter k [txId] txs r hq hmem
    exact ⟨txs, hq, r, hmem, by simpa using hid, hcom⟩
  · intro j f txs h1 h2 h3
    exact waitForTx_step s txId f j txs h1 h2 h3

/-- Witness for C1: on a well-behaved session that reports the tracked
transaction committed, the success poll indeed carries a committed record
for the tracked id. -/
theorem tx_safety_filtered_witness :
    ∃ txs, filteredSession.getTransactions 0 [1] = some txs ∧
      ∃ r, r ∈ txs ∧ r.id = 1 ∧ r.status.isCommitted = true :=
  (tx_safety_filtered filteredSession 1 1 0 0
    (by
      intro n ids txs r hq hr
      simp only [filteredSession] at hq
      obtain rfl := Option.some.inj hq
      simp only [List.mem_map] at hr
      obtain ⟨i, hi, rfl⟩ := hr
      exact hi)
    (by decide)).1

/-- Claim C2 counterexample: a synchronize failure is not treated as
transient.  On a session whose sync fails exactly on poll 0 while the
tracked transaction is already committed (and the expected note already
consumable), both loops abort with an error on poll 0; had they retried,
the very next poll would have succeeded. -/
theorem sync_transient_counterexample :
    transientSyncSession.syncOk 0 = false ∧
    waitForTx transientSyncSession 1 5 0 = some (.failure 0) ∧
    waitForTx transientSyncSession 1 5 1 = some (.success 1) ∧
    transientNoteSession.syncOk 0 = false ∧
    waitForNote transientNoteSession none 9 5 0 = some (.failure 0) ∧
    waitForNote transientNoteSession none 9 5 1 = some (.success 1) := by
  decide

/-- Claim C2 (amended): in both confirmation loops a failure of the
synchronize call is fatal, not transient: the loop aborts at that very poll,
propagating the error to the caller instead of retrying. -/
theorem sync_failure_aborts (s : TxSession) (ns : NoteSession) (accountId : Option Nat)
    (txId expectedId fuel k : Nat)
    (hs : s.syncOk k = false) (hns : ns.syncOk k = false) :
    waitForTx s txId (fuel + 1) k = some (.failure k) ∧
    waitForNote ns accountId expectedId (fuel + 1) k = some (.failure k) :=
  ⟨waitForTx_syncFail s txId fuel k hs,
   waitForNote_syncFail ns accountId expectedId fuel k hns⟩

/-- Witness for C2 (amended): both loops abort on the first poll of the
always-failing-sync sessions. -/
theorem sync_failure_aborts_witness :
    waitForTx syncFailSession 1 3 0 = some (.failure 0) ∧
    waitForNote syncFailNoteSession none 9 3 0 = some (.failure 0) :=
  sync_failure_aborts syncFailSession syncFailNoteSession none 1 9 2 0 rfl rfl

/-- Claim C3 counterexample: as literally stated the no-failure-terminal
claim is false, because an infrastructure error terminates the loop with an
error.  On a session whose sync always fails and whose query would report no
records at all (in particular never a `Committed` one for the tracked id),
`wait_for_tx` terminates on poll 0. -/
theorem tx_no_failure_counterexample :
    syncFailSession.getTransactions 0 [1] = some [] ∧
    syncFailSession.getTransactions 1 [1] = some [] ∧
    waitForTx syncFailSession 1 1 0 = some (.failure 0) ∧
    waitForTx syncFailSession 1 100 0 = some (.failure 0) := by
  decide

/-- Claim C3 (amended): as long as every synchronize and query call
succeeds and no poll result passes the commit check, `wait_for_tx` never
terminates, whatever the fuel: there is no timeout, cancellation, or
failure state reachable by error-free polling alone. -/
theorem tx_loops_forever (s : TxSession) (txId : Nat)
    (records : Nat → List TransactionRecord)
    (hclean : ∀ j, s.syncOk j = true)
    (hq : ∀ j, s.getTransactions j [txId] = some (records j))
    (hnc : ∀ j, committedCheck (records j) = false) :
    ∀ fuel start, waitForTx s txId fuel start = none := by
  intro fuel start
  exact waitForTx_none_below s txId fuel start fun j h1 h2 =>
    ⟨hclean j, records j, hq j, hnc j⟩

/-- Witness for C3 (amended): on the forever-pending session the loop is
still running after 7 polls. -/
theorem tx_loops_forever_witness :
    waitForTx pendingSession 1 7 0 = none :=
  tx_loops_forever pendingSession 1 (fun _ => [⟨1, .Pending⟩]) (fun _ => rfl)
    (fun _ => rfl) (fun _ => rfl) 7 0

/-- Claim C4: transaction-confirmation liveness.  If every sync succeeds
and the id-filtered query reports, on each poll `j`, exactly the tracked
transaction with status `status j`, where `status` first becomes `Committed`
on poll `k`, then with fuel beyond `k` the loop terminates successfully
exactly on poll `k`, and with fuel at most `k` it has not terminated yet —
so it terminates on the `k`-th poll and never before. -/
theorem tx_liveness (s : TxSession) (txId k fuel : Nat)
    (status : Nat → TransactionStatus)
    (hclean : ∀ j, s.syncOk j = true)
    (hrec : ∀ j, s.getTransactions j [txId] = some [⟨txId, status j⟩])
    (hbefore : ∀ j, j < k → (status j).isCommitted = false)
    (hk : (status k).isCommitted = true)
    (hfuel : k < fuel) :
    waitForTx s txId fuel 0 = some (.success k) ∧
    ∀ f, f ≤ k → waitForTx s txId f 0 = none := by
  have hcc : ∀ j, committedCheck [(⟨txId, status j⟩ : TransactionRecord)] =
      (status j).isCommitted := fun j => rfl
  constructor
  · exact waitForTx_first_commit s txId k
      (fun j hj => ⟨hclean j, [⟨txId, status j⟩], hrec j, by rw [hcc]; exact hbefore j hj⟩)
      (hclean k) ⟨[⟨txId, status k⟩], hrec k, by rw [hcc]; exact hk⟩ fuel 0 (by omega)
      (by omega)
  · intro f hf
    exact waitForTx_none_below s txId f 0 fun j h1 h2 =>
      ⟨hclean j, [⟨txId, status j⟩], hrec j, by rw [hcc]; exact hbefore j (by omega)⟩

/-- Witness for C4: on the session whose record first reports `Committed`
on poll 2, the loop with fuel 5 succeeds on poll 2 and with fuel 2 is still
running. -/
theorem tx_liveness_witness :
    waitForTx eventualSession 1 5 0 = some (.success 2) ∧
    waitForTx eventualSession 1 2 0 = none := by
  constructor
  · exact (tx_liveness eventualSession 1 2 5 eventualStatus (fun _ => rfl) (fun _ => rfl)
      (by intro j hj; interval_cases j <;> rfl) rfl (by omega)).1
  · exact (tx_liveness eventualSession 1 2 5 eventualStatus (fun _ => rfl) (fun _ => rfl)
      (by intro j hj; interval_cases j <;> rfl) rfl (by omega)).2 2 le_rfl

/-- Claim C5: note-visibility predicate.  On a session with error-free
polls whose consumable view (as queried with the given account scoping) and
committed-input-notes view are `consView` and `commView`, the loop
terminates successfully exactly on the first poll on which the expected
note id appears in at least one of the two views; and conversely any
successful return means the note id appeared in one of the two views on the
success poll. -/
theorem note_visibility (s : NoteSession) (accountId : Option Nat) (expectedId : Nat)
    (consView commView : Nat → List Nat) (k fuel : Nat)
    (hsync : ∀ j, s.syncOk j = true)
    (hcons : ∀ j, s.getConsumableNotes j accountId = some (consView j))
    (hcomm : ∀ j, s.getInputNotesCommitted j = some (commView j))
    (hk : ((consView k).any (· == expectedId) || (commView k).any (· == expectedId)) = true)
    (hbefore : ∀ j, j < k →
      ((consView j).any (· == expectedId) || (commView j).any (· == expectedId)) = false)
    (hfuel : k < fuel) :
    waitForNote s accountId expectedId fuel 0 = some (.success k) ∧
    ∀ f start j, waitForNote s accountId expectedId f start = some (.success j) →
      expectedId ∈ consView j ∨ expectedId ∈ commView j := by
  constructor
  · exact waitForNote_first_found s accountId expectedId k
      (fun j hj => ⟨hsync j, consView j, commView j, hcons j, hcomm j, hbefore j hj⟩)
      (hsync k) ⟨consView k, commView k, hcons k, hcomm k, hk⟩ fuel 0 (by omega) (by omega)
  · intro f start j hsucc
    obtain ⟨-, -, cons, comm, hc1, hc2, hf⟩ :=
      waitForNote_success_found s accountId expectedId f start j hsucc
    rw [hcons j] at hc1
    rw [hcomm j] at hc2
    obtain rfl := Option.some.inj hc1
    obtain rfl := Option.some.inj hc2
    simp only [List.any_eq_true, beq_iff_eq, Bool.or_eq_true] at hf
    rcases hf with ⟨x, hx, rfl⟩ | ⟨x, hx, rfl⟩
    · exact Or.inl hx
    · exact Or.inr hx

/-- Witness for C5: on the session where note id 9 enters the
committed-input-notes view on poll 1, the loop succeeds on poll 1. -/
theorem note_visibility_witness :
    waitForNote eventualNoteSession none 9 3 0 = some (.success 1) :=
  (note_visibility eventualNoteSession none 9 (fun _ => []) eventualCommittedView 1 3
    (fun _ => rfl) (fun _ => rfl) (fun _ => rfl) rfl
    (by intro j hj; interval_cases j; rfl) (by omega)).1

/-- Claim C6: local-state reset.  With no filesystem faults and an existing
keystore directory, one reset call empties the store and the keystore
directory (retaining the directory, absence of the store being a stdout
message and not an error), and a second immediate reset call produces the
same end state with no stderr output. -/
theorem reset_idempotent (s : FsState) (files : List String)
    (h : s.keystore = some files) :
    deleteKeystoreAndStore noFaults s =
      ⟨⟨false, some []⟩,
        (if s.storeExists then [LogMsg.clearedStore] else [LogMsg.storeNotFound]) ++
          files.map LogMsg.removedFile, []⟩ ∧
    deleteKeystoreAndStore noFaults (deleteKeystoreAndStore noFaults s).state =
      ⟨⟨false, some []⟩, [LogMsg.storeNotFound], []⟩ := by
  obtain ⟨se, ks⟩ := s
  obtain rfl : ks = some files := h
  cases se <;>
    simp [deleteKeystoreAndStore, noFaults_removeStore, removeKeystoreFiles_noFaults]

/-- Witness for C6: resetting a state with an existing store and two
keystore files, twice. -/
theorem reset_idempotent_witness :
    deleteKeystoreAndStore noFaults ⟨true, some ["a", "b"]⟩ =
      ⟨⟨false, some []⟩,
        [LogMsg.clearedStore, LogMsg.removedFile "a", LogMsg.removedFile "b"], []⟩ ∧
    deleteKeystoreAndStore noFaults
        (deleteKeystoreAndStore noFaults ⟨true, some ["a", "b"]⟩).state =
      ⟨⟨false, some []⟩, [LogMsg.storeNotFound], []⟩ :=
  reset_idempotent ⟨true, some ["a", "b"]⟩ ["a", "b"] rfl

/-- Claim C7 counterexample: `create_public_note` does not fail only by
propagating compile errors.  In an environment where the note script
compiles successfully but `submit_new_transaction` is rejected, it returns
the submission error. -/
theorem note_creation_counterexample :
    submitFailEnv.assembleProgram "note" = .ok ⟨0⟩ ∧
    createPublicNote submitFailEnv filteredSession 5 "note" 7 ⟨[]⟩ =
      some (.error .submitError) :=
  ⟨rfl, rfl⟩

/-- Claim C7 (amended): `create_public_note` propagates errors not only
from script compilation but also from note-input construction, request
building, submission, and the confirmation wait; when all of those steps
succeed it returns, without error, exactly the note assembled from the
compiled script, the drawn serial number, empty inputs, tag 0, public
visibility and the creator id. -/
theorem note_creation_success (env : NoteEnv) (s : TxSession) (fuel k : Nat)
    (noteCode : String) (creatorAccountId txId : Nat) (assets : NoteAssets)
    (program : Program) (noteInputs : NoteInputs) (req : TransactionRequest)
    (hcompile : env.assembleProgram noteCode = .ok program)
    (hinputs : env.noteInputsNew [] = .ok noteInputs)
    (hreq : env.buildRequest
      ⟨assets, ⟨creatorAccountId, .Public, 0⟩, ⟨env.drawWord, ⟨program⟩, noteInputs⟩⟩ =
        .ok req)
    (hsubmit : env.submitNewTransaction creatorAccountId req = .ok txId)
    (hwait : waitForTx s txId fuel 0 = some (.success k)) :
    createPublicNote env s fuel noteCode creatorAccountId assets =
      some (.ok ⟨assets, ⟨creatorAccountId, .Public, 0⟩,
        ⟨env.drawWord, ⟨program⟩, noteInputs⟩⟩) := by
  simp [createPublicNote, hcompile, hinputs, hreq, hsubmit, hwait]

/-- Witness for C7 (amended): in the all-successful environment the note
comes back as built. -/
theorem note_creation_success_witness :
    createPublicNote goodNoteEnv filteredSession 1 "note" 7 ⟨[]⟩ =
      some (.ok ⟨⟨[]⟩, ⟨7, .Public, 0⟩, ⟨0, ⟨⟨0⟩⟩, ⟨[]⟩⟩⟩) :=
  note_creation_success goodNoteEnv filteredSession 1 0 "note" 7 1 ⟨[]⟩ ⟨0⟩ ⟨[]⟩ ⟨0⟩
    rfl rfl rfl rfl (by decide)

/-- Claim C8: `create_tx_script` compiles standalone when no library is
supplied; when a library is supplied it first dynamically links it, then
compiles against it, and a linking failure is propagated as a compile-side
error.  In every case the result is a `TransactionScript` or an error, by
the return type. -/
theorem tx_script_linking (env : AsmEnv) (scriptCode : String) (lib : Library) :
    createTxScript env scriptCode none = env.compileTxScript [] scriptCode ∧
    (env.linkOk lib = true →
      createTxScript env scriptCode (some lib) = env.compileTxScript [lib] scriptCode) ∧
    (env.linkOk lib = false →
      createTxScript env scriptCode (some lib) = .error .linkError) := by
  refine ⟨rfl, fun h => ?_, fun h => ?_⟩ <;>
    simp [createTxScript, CodeBuilder.withDynamicallyLinkedLibrary, CodeBuilder.new, h]

/-- Witness for C8: on a toolchain that accepts the link, the script is
compiled against exactly the supplied library. -/
theorem tx_script_linking_witness :
    createTxScript linkEnv "script" (some ⟨3⟩) = linkEnv.compileTxScript [⟨3⟩] "script" :=
  (tx_script_linking linkEnv "script" ⟨3⟩).2.1 rfl

/-- Claim C9: the commit check inspects only the first element of the
returned record list and never compares its transaction id to the tracked
one.  Tracking id 1: a first record `Committed` under id 2 yields success,
while a record list whose second entry is `Committed` for the tracked id 1
behind a `Pending` first entry leaves the loop polling. -/
theorem commit_check_first_only :
    waitForTx mismatchSession 1 3 0 = some (.success 0) ∧
    mismatchSession.getTransactions 0 [1] = some [⟨2, .Committed 7⟩] ∧
    waitForTx secondPositionSession 1 1 0 = none ∧
    secondPositionSession.getTransactions 0 [1] =
      some [⟨1, .Pending⟩, ⟨1, .Committed 4⟩] := by
  decide

/-- Claim C10: `delete_keystore_and_store` is total and swallows every
filesystem error: under any fault pattern it returns an outcome (the return
type has no error alternative), its stderr output lists exactly one message
per failed operation (store removal failure, unreadable keystore directory,
each failed file removal), and the keystore directory itself is never
deleted. -/
theorem reset_total_swallows_errors (f : FsFaults) (s : FsState) :
    (deleteKeystoreAndStore f s).stderr =
      (if s.storeExists && f.removeStoreFails then [LogMsg.failedRemoveStore] else []) ++
        (match s.keystore with
          | some files => (files.filter f.removeFileFails).map LogMsg.failedRemoveFile
          | none => [LogMsg.failedReadDir]) ∧
    (deleteKeystoreAndStore f s).state.keystore.isSome = s.keystore.isSome := by
  obtain ⟨se, ks⟩ := s
  cases ks with
  | some files =>
    have h2 := (removeKeystoreFiles_spec f files).2
    rcases hr : removeKeystoreFiles f files with ⟨kept, out, err⟩
    rw [hr] at h2
    dsimp only at h2
    cases se <;> cases hfb : f.removeStoreFails <;>
      simp [deleteKeystoreAndStore, hr, hfb, h2]
  | none =>
    cases se <;> cases hfb : f.removeStoreFails <;>
      simp [deleteKeystoreAndStore, hfb]

end MasmTemplate
